import Mathlib

/-!
Verification development for the OrientPy sensor-fusion core
(`src/filter.py` — `ComplementaryFilter`, and `src/processor.py` —
`OrientProcessor`).

Modelling conventions:
* Python floats are idealised as real numbers `ℝ`.
* The monotonic millisecond clock (`utime.ticks_ms`) is made explicit:
  every operation that reads the clock takes a `now : ℤ` argument, and
  `utime.ticks_diff now last` is plain integer subtraction.
* Python dict-vectors `{'x':…,'y':…,'z':…}` become the `Vec3` structure.
* Methods that mutate `self` become functions `State → … → State × result`.
* Fallible code (Python statements that can raise) is embedded with
  `Option`: `ZeroDivisionError` on `1.0 / update_rate`, `1000 // update_rate`
  and `sum / samples` becomes a `none` result.  An out-of-range
  `gyro_weight` at construction leaves `pitch_weight` / `roll_weight`
  unassigned in Python, so the very first `update` raises
  `AttributeError`; the embedding surfaces that latent fault at
  construction time by returning `none` from `init`.
* `calibrate_gyro`'s caller-supplied sample source is modelled as a
  function `ℕ → Vec3` from the sample index; the inter-sample sleep
  has no state effect and is dropped.
-/

noncomputable section

/-- Three-component vector, the embedding of the source's
`{'x': …, 'y': …, 'z': …}` dictionaries. -/
structure Vec3 where
  x : ℝ
  y : ℝ
  z : ℝ

/-- Two-argument arctangent, the embedding of Python's `math.atan2 y x`:
the argument of the complex number `x + y·i`, which lies in `(-π, π]`. -/
def atan2 (y x : ℝ) : ℝ := Complex.arg ⟨x, y⟩

/-- The `epsilon = 1e-10` guard used in `_get_accel_pitch` / `_get_accel_roll`. -/
def epsilon : ℝ := 1 / 10 ^ 10

/-- Embedding of the denominator guard in `_get_accel_pitch` /
`_get_accel_roll` (`filter.py` lines 108-110 and 121-123):
`if abs(denominator) < epsilon: denominator = epsilon if denominator >= 0 else -epsilon`. -/
def clampDenom (d : ℝ) : ℝ :=
  if |d| < epsilon then (if 0 ≤ d then epsilon else -epsilon) else d

/-- Embedding of `ComplementaryFilter._get_accel_pitch` (`filter.py` 101-112):
`atan2(-accel['x'], clamp(sqrt(accel['y']**2 + accel['z']**2)))`. -/
def accel_pitch (accel : Vec3) : ℝ :=
  atan2 (-accel.x) (clampDenom (Real.sqrt (accel.y ^ 2 + accel.z ^ 2)))

/-- Embedding of `ComplementaryFilter._get_accel_roll` (`filter.py` 114-125):
`atan2(accel['y'], clamp(sqrt(accel['x']**2 + accel['z']**2)))`. -/
def accel_roll (accel : Vec3) : ℝ :=
  atan2 accel.y (clampDenom (Real.sqrt (accel.x ^ 2 + accel.z ^ 2)))

/-- Embedding of Python's `math.degrees`. -/
def degreesOf (x : ℝ) : ℝ := x * (180 / Real.pi)

/-- State of `ComplementaryFilter` (`filter.py`): the fields assigned in
`__init__` / `set_weights`.  `last_update` is the millisecond tick of the
last update, `dt` the last time-step in seconds (initially `1/update_rate`). -/
structure ComplementaryFilter where
  update_rate : ℕ
  pitch_weight : ℝ
  roll_weight : ℝ
  pitch : ℝ
  roll : ℝ
  last_update : ℤ
  dt : ℝ

namespace ComplementaryFilter

/-- Embedding of `ComplementaryFilter.set_weights` (`filter.py` 32-63).
The three optional arguments are validated and applied in order
(`gyro_weight`, then `pitch_weight`, then `roll_weight`); a failing check
returns `false` immediately, keeping whatever assignments were already made
(Python's early `return False` does not undo prior `self.…` assignments). -/
def set_weights (f : ComplementaryFilter)
    (gyro_weight pitch_weight roll_weight : Option ℝ) :
    ComplementaryFilter × Bool :=
  match gyro_weight with
  | some w =>
    if 0 ≤ w ∧ w ≤ 1 then
      let f1 := { f with pitch_weight := w, roll_weight := w }
      match pitch_weight with
      | some pw =>
        if 0 ≤ pw ∧ pw ≤ 1 then
          let f2 := { f1 with pitch_weight := pw }
          match roll_weight with
          | some rw =>
            if 0 ≤ rw ∧ rw ≤ 1 then ({ f2 with roll_weight := rw }, true)
            else (f2, false)
          | none => (f2, true)
        else (f1, false)
      | none =>
        match roll_weight with
        | some rw =>
          if 0 ≤ rw ∧ rw ≤ 1 then ({ f1 with roll_weight := rw }, true)
          else (f1, false)
        | none => (f1, true)
    else (f, false)
  | none =>
    match pitch_weight with
    | some pw =>
      if 0 ≤ pw ∧ pw ≤ 1 then
        let f2 := { f with pitch_weight := pw }
        match roll_weight with
        | some rw =>
          if 0 ≤ rw ∧ rw ≤ 1 then ({ f2 with roll_weight := rw }, true)
          else (f2, false)
        | none => (f2, true)
      else (f, false)
    | none =>
      match roll_weight with
      | some rw =>
        if 0 ≤ rw ∧ rw ≤ 1 then ({ f with roll_weight := rw }, true)
        else (f, false)
      | none => (f, true)

/-- Embedding of `ComplementaryFilter.__init__` (`filter.py` 13-30), taking
the construction-time clock reading `now`.  Python raises
`ZeroDivisionError` on `1.0 / update_rate` when the rate is 0, and an
out-of-range `gyro_weight` leaves the weight attributes unassigned so the
first use raises `AttributeError`; both latent faults are embedded as `none`. -/
def init (update_rate : ℕ) (gyro_weight : ℝ) (now : ℤ) :
    Option ComplementaryFilter :=
  if update_rate = 0 then none
  else if 0 ≤ gyro_weight ∧ gyro_weight ≤ 1 then
    some { update_rate := update_rate
           pitch_weight := gyro_weight
           roll_weight := gyro_weight
           pitch := 0
           roll := 0
           last_update := now
           dt := 1 / (update_rate : ℝ) }
  else none

/-- Embedding of `ComplementaryFilter.get_angles` (`filter.py` 127-145):
a pure read of `(pitch, roll)`, converted with `math.degrees` on request. -/
def get_angles (f : ComplementaryFilter) (in_degrees : Bool) : ℝ × ℝ :=
  if in_degrees then (degreesOf f.pitch, degreesOf f.roll)
  else (f.pitch, f.roll)

/-- Embedding of `ComplementaryFilter.update` (`filter.py` 65-99).
When `dt` is `none` the delta is computed from the clock
(`ticks_diff(now, last_update) / 1000.0`) and, only in that branch, a
non-positive value is replaced by the stored `self.dt`; an explicitly
supplied `dt` is used unmodified.  Both `last_update` and `dt` are then
stored, the complementary blend is applied, and `get_angles()` is returned. -/
def update (f : ComplementaryFilter) (accel gyro : Vec3)
    (dt : Option ℝ) (now : ℤ) : ComplementaryFilter × (ℝ × ℝ) :=
  let d : ℝ :=
    match dt with
    | some d => d
    | none =>
      let d0 := ((now - f.last_update : ℤ) : ℝ) / 1000
      if d0 ≤ 0 then f.dt else d0
  let ap := accel_pitch accel
  let ar := accel_roll accel
  let newPitch := f.pitch_weight * (f.pitch + gyro.y * d) +
    (1 - f.pitch_weight) * ap
  let newRoll := f.roll_weight * (f.roll + gyro.x * d) +
    (1 - f.roll_weight) * ar
  let f2 := { f with pitch := newPitch, roll := newRoll,
                     last_update := now, dt := d }
  (f2, f2.get_angles false)

/-- Embedding of `ComplementaryFilter.reset` (`filter.py` 147-151):
zeroes the angles and re-bases the clock; touches nothing else. -/
def reset (f : ComplementaryFilter) (now : ℤ) : ComplementaryFilter :=
  { f with pitch := 0, roll := 0, last_update := now }

end ComplementaryFilter

/-- State of `OrientProcessor` (`processor.py`): the owned filter plus the
calibration offsets and the rate-gating bookkeeping
(`min_interval = 1000 // update_rate` in milliseconds). -/
structure OrientProcessor where
  update_rate : ℕ
  filter : ComplementaryFilter
  accel_offset : Vec3
  gyro_offset : Vec3
  last_update : ℤ
  min_interval : ℤ

namespace OrientProcessor

/-- Embedding of `OrientProcessor.__init__` (`processor.py` 13-29), taking
the construction-time clock reading `now`.  `update_rate = 0` raises
`ZeroDivisionError` in Python (`1.0 / update_rate` inside the filter and
`1000 // update_rate` here), embedded as `none`. -/
def init (update_rate : ℕ) (now : ℤ) : Option OrientProcessor :=
  match ComplementaryFilter.init update_rate (95 / 100) now with
  | none => none
  | some filt =>
    if update_rate = 0 then none
    else
      some { update_rate := update_rate
             filter := filt
             accel_offset := ⟨0, 0, 0⟩
             gyro_offset := ⟨0, 0, 0⟩
             last_update := now
             min_interval := ((1000 / update_rate : ℕ) : ℤ) }

/-- Embedding of `OrientProcessor.calibrate_gyro` (`processor.py` 31-61):
averages `samples` readings from the injected source and overwrites
`gyro_offset` wholesale.  With `samples = 0` Python raises
`ZeroDivisionError` on `sum_x / samples` (state unchanged), embedded as
`none`; the inter-sample `sleep_ms` has no state effect and is dropped. -/
def calibrate_gyro (p : OrientProcessor) (read_gyro_func : ℕ → Vec3)
    (samples : ℕ) : OrientProcessor × Option Vec3 :=
  if samples = 0 then (p, none)
  else
    let offset : Vec3 :=
      ⟨(∑ i ∈ Finset.range samples, (read_gyro_func i).x) / samples,
       (∑ i ∈ Finset.range samples, (read_gyro_func i).y) / samples,
       (∑ i ∈ Finset.range samples, (read_gyro_func i).z) / samples⟩
    ({ p with gyro_offset := offset }, some offset)

/-- Embedding of `OrientProcessor.should_update` (`processor.py` 63-67):
`ticks_diff(now, last_update) >= min_interval`; a pure predicate. -/
def should_update (p : OrientProcessor) (now : ℤ) : Bool :=
  decide (p.min_interval ≤ now - p.last_update)

/-- Embedding of `OrientProcessor.update` (`processor.py` 69-95).  If the
gate rejects, returns the no-op sentinel (`none`) without mutating
anything; otherwise computes the elapsed delta, advances `last_update`,
subtracts `gyro_offset` component-wise and delegates to the filter.
Python reads `ticks_ms()` once inside `should_update` and once in `update`;
both reads are modelled by the single argument `now`. -/
def update (p : OrientProcessor) (accel gyro : Vec3) (now : ℤ) :
    OrientProcessor × Option (ℝ × ℝ) :=
  if p.should_update now then
    let d : ℝ := ((now - p.last_update : ℤ) : ℝ) / 1000
    let calibrated_gyro : Vec3 :=
      ⟨gyro.x - p.gyro_offset.x, gyro.y - p.gyro_offset.y,
       gyro.z - p.gyro_offset.z⟩
    let r := p.filter.update accel calibrated_gyro (some d) now
    ({ p with filter := r.1, last_update := now }, some r.2)
  else (p, none)

/-- Embedding of `OrientProcessor.get_orientation` (`processor.py` 97-99). -/
def get_orientation (p : OrientProcessor) (in_degrees : Bool) : ℝ × ℝ :=
  p.filter.get_angles in_degrees

/-- Embedding of `OrientProcessor.set_filter_weights` (`processor.py` 101-103). -/
def set_filter_weights (p : OrientProcessor)
    (gyro_weight pitch_weight roll_weight : Option ℝ) :
    OrientProcessor × Bool :=
  let r := p.filter.set_weights gyro_weight pitch_weight roll_weight
  ({ p with filter := r.1 }, r.2)

end OrientProcessor

/-- A freshly constructed filter: `ComplementaryFilter(update_rate=100)`
built at tick 0 (default `gyro_weight = 0.95`). -/
def filt0 : ComplementaryFilter :=
  { update_rate := 100
    pitch_weight := 95 / 100
    roll_weight := 95 / 100
    pitch := 0
    roll := 0
    last_update := 0
    dt := 1 / 100 }

/-- A freshly constructed processor: `OrientProcessor(update_rate=100)`
built at tick 0 (`min_interval = 1000 // 100 = 10` ms). -/
def proc0 : OrientProcessor :=
  { update_rate := 100
    filter := filt0
    accel_offset := ⟨0, 0, 0⟩
    gyro_offset := ⟨0, 0, 0⟩
    last_update := 0
    min_interval := 10 }

/-- Sanity check: `filt0` is exactly what `init` produces at rate 100. -/
lemma filt0_init : ComplementaryFilter.init 100 (95 / 100) 0 = some filt0 := by
  simp [ComplementaryFilter.init, filt0]
  norm_num

/-- Sanity check: `proc0` is exactly what `init` produces at rate 100. -/
lemma proc0_init : OrientProcessor.init 100 0 = some proc0 := by
  simp [OrientProcessor.init, filt0_init, proc0]

/-- If the gate interval has not yet elapsed, `OrientProcessor.update` is a
no-op: it returns the untouched state together with the `none` sentinel. -/
lemma update_gate_noop (p : OrientProcessor) (a g : Vec3) (now : ℤ)
    (h : now - p.last_update < p.min_interval) :
    p.update a g now = (p, none) := by
  simp [OrientProcessor.update, OrientProcessor.should_update, not_le.mpr h]

/-- If the gate interval has elapsed, `OrientProcessor.update` advances
`last_update` and delegates to the filter with the offset-corrected
gyroscope reading and the measured delta. -/
lemma update_gate_accept (p : OrientProcessor) (a g : Vec3) (now : ℤ)
    (h : p.min_interval ≤ now - p.last_update) :
    p.update a g now =
      ({ p with
          filter := (p.filter.update a
            ⟨g.x - p.gyro_offset.x, g.y - p.gyro_offset.y, g.z - p.gyro_offset.z⟩
            (some (((now - p.last_update : ℤ) : ℝ) / 1000)) now).1,
          last_update := now },
        some ((p.filter.update a
            ⟨g.x - p.gyro_offset.x, g.y - p.gyro_offset.y, g.z - p.gyro_offset.z⟩
            (some (((now - p.last_update : ℤ) : ℝ) / 1000)) now).2)) := by
  simp [OrientProcessor.update, OrientProcessor.should_update, h]

/-- C1: with an explicitly supplied positive `dt`, `Filter.update` sets the
new pitch to `pitch_weight * (old_pitch + gyro.y * dt) + (1 - pitch_weight) * accel_pitch`
and the new roll to `roll_weight * (old_roll + gyro.x * dt) + (1 - roll_weight) * accel_roll`,
where the accelerometer angles are `atan2` over the clamped square-root
denominators, and returns exactly that new angle pair. -/
theorem update_blend_formula (f : ComplementaryFilter) (a g : Vec3) (d : ℝ)
    (now : ℤ) (hd : 0 < d) :
    ((f.update a g (some d) now).1.pitch =
        f.pitch_weight * (f.pitch + g.y * d) +
          (1 - f.pitch_weight) * accel_pitch a) ∧
    ((f.update a g (some d) now).1.roll =
        f.roll_weight * (f.roll + g.x * d) +
          (1 - f.roll_weight) * accel_roll a) ∧
    accel_pitch a =
      atan2 (-a.x) (clampDenom (Real.sqrt (a.y ^ 2 + a.z ^ 2))) ∧
    accel_roll a =
      atan2 a.y (clampDenom (Real.sqrt (a.x ^ 2 + a.z ^ 2))) ∧
    (f.update a g (some d) now).2 =
      ((f.update a g (some d) now).1.pitch,
       (f.update a g (some d) now).1.roll) :=
  ⟨rfl, rfl, rfl, rfl, rfl⟩

/-- Witness for C1: the blend formula at a concrete state and input. -/
theorem update_blend_formula_witness :
    (0 : ℝ) < 1 ∧
    (filt0.update ⟨1, 2, 3⟩ ⟨4, 5, 6⟩ (some 1) 7).1.pitch =
      filt0.pitch_weight * (filt0.pitch + (5 : ℝ) * 1) +
        (1 - filt0.pitch_weight) * accel_pitch ⟨1, 2, 3⟩ :=
  ⟨by norm_num,
   (update_blend_formula filt0 ⟨1, 2, 3⟩ ⟨4, 5, 6⟩ 1 7 (by norm_num)).1⟩

/-- C8: after `reset`, the stored pitch and roll are both 0 — so
`get_angles` returns `(0, 0)` — and both blend weights are exactly what
they were before the reset. -/
theorem reset_zeroes_angles_keeps_weights (f : ComplementaryFilter) (now : ℤ) :
    (f.reset now).pitch = 0 ∧ (f.reset now).roll = 0 ∧
    (f.reset now).get_angles false = (0, 0) ∧
    (f.reset now).pitch_weight = f.pitch_weight ∧
    (f.reset now).roll_weight = f.roll_weight :=
  ⟨rfl, rfl, rfl, rfl, rfl⟩

/-- C9: `get_angles` is a pure read: its result depends only on the stored
`pitch` and `roll` (so repeated calls with no intervening `update` return
identical pairs), and with `in_degrees = true` it returns the stored
radian angles times `180 / π`. -/
theorem get_angles_pure (f fb : ComplementaryFilter) (d : Bool)
    (hp : f.pitch = fb.pitch) (hr : f.roll = fb.roll) :
    f.get_angles d = fb.get_angles d ∧
    f.get_angles true = (f.pitch * (180 / Real.pi), f.roll * (180 / Real.pi)) ∧
    f.get_angles false = (f.pitch, f.roll) := by
  refine ⟨?_, rfl, rfl⟩
  simp [ComplementaryFilter.get_angles, hp, hr]

/-- Witness for C9: `filt0` and the state it resets to agree on both
angles, hence on every `get_angles` result. -/
theorem get_angles_pure_witness :
    filt0.get_angles true = (filt0.reset 5).get_angles true ∧
    filt0.get_angles true =
      (filt0.pitch * (180 / Real.pi), filt0.roll * (180 / Real.pi)) ∧
    filt0.get_angles false = (filt0.pitch, filt0.roll) :=
  get_angles_pure filt0 (filt0.reset 5) true rfl rfl

/-- C4: a `Processor.update` call made before `min_interval` has elapsed
since the last accepted update returns the no-op sentinel and mutates
nothing (`last_update` included); concretely, at update rate 100
(`min_interval = 10` ms) calls at ticks 10, 15 and 21 yield accepted,
no-op with untouched state, accepted. -/
theorem processor_rate_gating (p : OrientProcessor) (a g : Vec3) (now : ℤ)
    (h : now - p.last_update < p.min_interval) :
    p.update a g now = (p, none) ∧
    ∀ a2 g2 : Vec3,
      (proc0.update a2 g2 10).2.isSome = true ∧
      (proc0.update a2 g2 10).1.update a2 g2 15 =
        ((proc0.update a2 g2 10).1, none) ∧
      ((proc0.update a2 g2 10).1.update a2 g2 21).2.isSome = true := by
  refine ⟨update_gate_noop p a g now h, ?_⟩
  intro a2 g2
  rw [update_gate_accept proc0 a2 g2 10 (by norm_num [proc0])]
  refine ⟨by simp, ?_, ?_⟩
  · exact update_gate_noop _ a2 g2 15 (by norm_num [proc0])
  · rw [update_gate_accept _ a2 g2 21 (by norm_num [proc0])]
    simp

/-- Witness for C4: at tick 5 (only 5 ms after construction) `proc0`
rejects the update and is left untouched. -/
theorem processor_rate_gating_witness :
    ((5 : ℤ) - proc0.last_update < proc0.min_interval) ∧
    proc0.update ⟨0, 0, 0⟩ ⟨0, 0, 0⟩ 5 = (proc0, none) :=
  ⟨by norm_num [proc0],
   (processor_rate_gating proc0 ⟨0, 0, 0⟩ ⟨0, 0, 0⟩ 5 (by norm_num [proc0])).1⟩

/-- Counterexample for C2 as stated: an explicitly supplied `dt = 0` is a
non-positive effective delta, yet `update` stores and integrates 0 rather
than substituting the nominal period `1 / update_rate = 1 / 100`. -/
theorem update_dt_counterexample :
    (filt0.update ⟨0, 0, 0⟩ ⟨0, 0, 0⟩ (some 0) 5).1.dt = 0 ∧
    1 / (filt0.update_rate : ℝ) = 1 / 100 ∧
    (0 : ℝ) ≠ 1 / 100 :=
  ⟨rfl, by norm_num [filt0], by norm_num⟩

/-- C2 (amended): only when `dt` is omitted and the clock-computed delta is
non-positive does `update` substitute a fallback, namely the previously
stored delta `f.dt` (equal to `1 / update_rate` until some update overwrites
it); an explicitly supplied `dt` is stored and integrated as-is, even when
it is non-positive. -/
theorem update_dt_policy (f : ComplementaryFilter) (a g : Vec3) (now : ℤ)
    (d : ℝ) (h : ((now - f.last_update : ℤ) : ℝ) / 1000 ≤ 0) :
    (f.update a g none now).1.dt = f.dt ∧
    (f.update a g (some d) now).1.dt = d ∧
    (f.update a g (some d) now).1.pitch =
      f.pitch_weight * (f.pitch + g.y * d) +
        (1 - f.pitch_weight) * accel_pitch a := by
  refine ⟨?_, rfl, rfl⟩
  have h2 : ((now : ℝ) - (f.last_update : ℝ)) / 1000 ≤ 0 := by
    push_cast at h
    exact h
  simp [ComplementaryFilter.update, h2]

/-- Witness for C2 (amended): updating `filt0` at tick 0 gives a zero
clock delta, and the stored fallback `1/100` is substituted. -/
theorem update_dt_policy_witness :
    (((0 : ℤ) - filt0.last_update : ℤ) : ℝ) / 1000 ≤ 0 ∧
    (filt0.update ⟨0, 0, 0⟩ ⟨0, 0, 0⟩ none 0).1.dt = filt0.dt :=
  ⟨by norm_num [filt0],
   (update_dt_policy filt0 ⟨0, 0, 0⟩ ⟨0, 0, 0⟩ 0 1 (by norm_num [filt0])).1⟩

/-- Counterexample for C3 as stated: `set_weights(gyro_weight = 1/2,
pitch_weight = 2)` fails (returns `false`) because 2 is out of range, yet
both weights have already been overwritten from 0.95 to 1/2 — the failing
call does not leave the previous weights untouched. -/
theorem set_weights_counterexample :
    (filt0.set_weights (some (1 / 2)) (some 2) none).2 = false ∧
    (filt0.set_weights (some (1 / 2)) (some 2) none).1.pitch_weight = 1 / 2 ∧
    (filt0.set_weights (some (1 / 2)) (some 2) none).1.roll_weight = 1 / 2 ∧
    filt0.pitch_weight = 95 / 100 ∧
    (1 / 2 : ℝ) ≠ 95 / 100 := by
  refine ⟨?_, ?_, ?_, rfl, by norm_num⟩ <;>
    norm_num [ComplementaryFilter.set_weights]

/-- C3 (amended): `set_weights` validates and applies its arguments in
order (`gyro_weight`, then `pitch_weight`, then `roll_weight`).  An
out-of-range value makes the call return failure and is itself never
applied, but assignments already made by earlier valid arguments of the
same call persist; in particular a call supplying only `gyro_weight`
fails with the state fully unchanged. -/
theorem set_weights_order (f : ComplementaryFilter) (w pv rv : ℝ) :
    (¬(0 ≤ w ∧ w ≤ 1) →
      ∀ pwo rwo, f.set_weights (some w) pwo rwo = (f, false)) ∧
    ((0 ≤ w ∧ w ≤ 1) →
      f.set_weights (some w) none none =
        ({ f with pitch_weight := w, roll_weight := w }, true)) ∧
    ((0 ≤ w ∧ w ≤ 1) → ¬(0 ≤ pv ∧ pv ≤ 1) → ∀ rwo,
      f.set_weights (some w) (some pv) rwo =
        ({ f with pitch_weight := w, roll_weight := w }, false)) ∧
    ((0 ≤ w ∧ w ≤ 1) → (0 ≤ pv ∧ pv ≤ 1) → ¬(0 ≤ rv ∧ rv ≤ 1) →
      f.set_weights (some w) (some pv) (some rv) =
        ({ f with pitch_weight := pv, roll_weight := w }, false)) := by
  refine ⟨?_, ?_, ?_, ?_⟩
  · intro h pwo rwo
    simp [ComplementaryFilter.set_weights, h]
  · intro h
    simp [ComplementaryFilter.set_weights, h]
  · intro h hp rwo
    cases rwo <;> simp [ComplementaryFilter.set_weights, h, hp]
  · intro h hp hr
    simp [ComplementaryFilter.set_weights, h, hp, hr]

/-- Witness for C3 (amended): a gyro-weight-only call with the invalid
value 2 fails and leaves `filt0` fully unchanged. -/
theorem set_weights_order_witness :
    ¬((0 : ℝ) ≤ 2 ∧ (2 : ℝ) ≤ 1) ∧
    filt0.set_weights (some 2) none none = (filt0, false) :=
  ⟨by norm_num, (set_weights_order filt0 2 0 0).1 (by norm_num) none none⟩

/-- The sign-preserving clamp is strictly positive on every non-negative
input — in particular on every square-root denominator. -/
lemma clampDenom_pos (d : ℝ) (hd : 0 ≤ d) : 0 < clampDenom d := by
  have hε : (0 : ℝ) < epsilon := by norm_num [epsilon]
  unfold clampDenom
  rw [abs_of_nonneg hd, if_pos hd]
  split_ifs with h
  · exact hε
  · linarith [not_lt.mp h]

/-- C5: the clamped denominator fed to `atan2` is strictly positive for
every accelerometer vector (a zero denominator is impossible by
construction — at the all-zero vector the clamp yields exactly `epsilon`),
and each derived angle always lies in `(-π, π]`. -/
theorem accel_angles_safe (a : Vec3) :
    0 < clampDenom (Real.sqrt (a.y ^ 2 + a.z ^ 2)) ∧
    0 < clampDenom (Real.sqrt (a.x ^ 2 + a.z ^ 2)) ∧
    accel_pitch a ∈ Set.Ioc (-Real.pi) Real.pi ∧
    accel_roll a ∈ Set.Ioc (-Real.pi) Real.pi ∧
    clampDenom (Real.sqrt ((0 : ℝ) ^ 2 + (0 : ℝ) ^ 2)) = epsilon := by
  refine ⟨clampDenom_pos _ (Real.sqrt_nonneg _),
          clampDenom_pos _ (Real.sqrt_nonneg _), ?_, ?_, ?_⟩
  · simp only [accel_pitch, atan2]
    exact Complex.arg_mem_Ioc _
  · simp only [accel_roll, atan2]
    exact Complex.arg_mem_Ioc _
  · norm_num [clampDenom, epsilon, Real.sqrt_zero]

/-- Averaging a source that returns the fixed vector `b` on every call
yields exactly `b`, so calibration overwrites the offset with `b`. -/
lemma calibrate_const_offset (p : OrientProcessor) (read : ℕ → Vec3)
    (b : Vec3) (n : ℕ) (hn : 1 ≤ n) (hread : ∀ i, read i = b) :
    p.calibrate_gyro read n = ({ p with gyro_offset := b }, some b) := by
  have hn0 : n ≠ 0 := by omega
  have hc : (n : ℝ) ≠ 0 := Nat.cast_ne_zero.mpr hn0
  have hx : (∑ i ∈ Finset.range n, (read i).x) / n = b.x := by
    simp only [hread, Finset.sum_const, Finset.card_range, nsmul_eq_mul]
    exact mul_div_cancel_left₀ _ hc
  have hy : (∑ i ∈ Finset.range n, (read i).y) / n = b.y := by
    simp only [hread, Finset.sum_const, Finset.card_range, nsmul_eq_mul]
    exact mul_div_cancel_left₀ _ hc
  have hz : (∑ i ∈ Finset.range n, (read i).z) / n = b.z := by
    simp only [hread, Finset.sum_const, Finset.card_range, nsmul_eq_mul]
    exact mul_div_cancel_left₀ _ hc
  simp [OrientProcessor.calibrate_gyro, hn0, hx, hy, hz]

/-- C6: with a sample source that returns the fixed vector `b` on every
call and any `samples ≥ 1`, `calibrate_gyro` sets `gyro_offset` to exactly
`b`, fully replacing the previous offset, and every subsequently accepted
`Processor.update` hands the filter the raw gyroscope reading minus
exactly `b`, component-wise. -/
theorem calibrate_exact_offset (p : OrientProcessor) (read : ℕ → Vec3)
    (b : Vec3) (n : ℕ) (hn : 1 ≤ n) (hread : ∀ i, read i = b) :
    (p.calibrate_gyro read n).1.gyro_offset = b ∧
    (p.calibrate_gyro read n).2 = some b ∧
    ∀ (a g : Vec3) (now : ℤ),
      p.min_interval ≤ now - p.last_update →
      (p.calibrate_gyro read n).1.update a g now =
        ({ (p.calibrate_gyro read n).1 with
            filter := (p.filter.update a
              ⟨g.x - b.x, g.y - b.y, g.z - b.z⟩
              (some (((now - p.last_update : ℤ) : ℝ) / 1000)) now).1,
            last_update := now },
          some ((p.filter.update a
              ⟨g.x - b.x, g.y - b.y, g.z - b.z⟩
              (some (((now - p.last_update : ℤ) : ℝ) / 1000)) now).2)) := by
  rw [calibrate_const_offset p read b n hn hread]
  refine ⟨rfl, rfl, ?_⟩
  intro a g now hgate
  exact update_gate_accept _ a g now hgate

/-- Witness for C6: three identical samples `(1, 2, 3)` calibrate the
offset to exactly `(1, 2, 3)`. -/
theorem calibrate_exact_offset_witness :
    1 ≤ 3 ∧
    (proc0.calibrate_gyro (fun _ => ⟨1, 2, 3⟩) 3).1.gyro_offset =
      (⟨1, 2, 3⟩ : Vec3) :=
  ⟨by norm_num,
   (calibrate_exact_offset proc0 (fun _ => ⟨1, 2, 3⟩) ⟨1, 2, 3⟩ 3
     (by norm_num) (fun _ => rfl)).1⟩

/-- C10: `calibrate_gyro` (with any `samples ≥ 1`) modifies only
`gyro_offset`: the owned filter — hence its angles and both weights —
`accel_offset`, `min_interval` and the gating baseline `last_update` are
all left exactly as they were. -/
theorem calibrate_frame (p : OrientProcessor) (read : ℕ → Vec3) (n : ℕ)
    (hn : 1 ≤ n) :
    (p.calibrate_gyro read n).1.filter = p.filter ∧
    (p.calibrate_gyro read n).1.filter.pitch = p.filter.pitch ∧
    (p.calibrate_gyro read n).1.filter.roll = p.filter.roll ∧
    (p.calibrate_gyro read n).1.filter.pitch_weight = p.filter.pitch_weight ∧
    (p.calibrate_gyro read n).1.filter.roll_weight = p.filter.roll_weight ∧
    (p.calibrate_gyro read n).1.accel_offset = p.accel_offset ∧
    (p.calibrate_gyro read n).1.min_interval = p.min_interval ∧
    (p.calibrate_gyro read n).1.last_update = p.last_update := by
  have hn0 : ¬ n = 0 := by omega
  simp [OrientProcessor.calibrate_gyro, hn0]

/-- Witness for C10: a one-sample calibration of `proc0` leaves the
filter and the gating state untouched. -/
theorem calibrate_frame_witness :
    1 ≤ 1 ∧
    (proc0.calibrate_gyro (fun _ => ⟨4, 5, 6⟩) 1).1.filter = proc0.filter :=
  ⟨by norm_num,
   (calibrate_frame proc0 (fun _ => ⟨4, 5, 6⟩) 1 (by norm_num)).1⟩

/-- Counterexample for C7 as stated: `calibrate_gyro` with the
non-negative sample count 0 faults (`sum_x / samples` raises
`ZeroDivisionError`, embedded as `none`), and construction with
`update_rate = 0` faults on `1.0 / update_rate` and
`1000 // update_rate`. -/
theorem core_fault_counterexample :
    (proc0.calibrate_gyro (fun _ => ⟨1, 2, 3⟩) 0).2 = none ∧
    ComplementaryFilter.init 0 (95 / 100) 0 = none ∧
    OrientProcessor.init 0 0 = none := by
  refine ⟨rfl, ?_, ?_⟩
  · simp [ComplementaryFilter.init]
  · simp [OrientProcessor.init, ComplementaryFilter.init]

/-- C7 (amended): with a positive update rate, a construction weight in
[0, 1] and a calibration sample count of at least 1, every core operation
completes without a fault: construction of both components succeeds and
`calibrate_gyro` returns a result.  All remaining operations
(`set_weights`, `update`, `get_angles`, `reset`, `should_update`,
`get_orientation`, `set_filter_weights`) are total functions of the state
in this model, and `Processor.update`'s `none` is the documented no-op
sentinel, not a fault. -/
theorem core_ops_no_fault (rate n : ℕ) (w : ℝ) (now : ℤ)
    (read : ℕ → Vec3) (p : OrientProcessor)
    (hr : 1 ≤ rate) (hw : 0 ≤ w ∧ w ≤ 1) (hn : 1 ≤ n) :
    (ComplementaryFilter.init rate w now).isSome = true ∧
    (OrientProcessor.init rate now).isSome = true ∧
    ((p.calibrate_gyro read n).2).isSome = true := by
  have hr0 : ¬ rate = 0 := by omega
  have hn0 : ¬ n = 0 := by omega
  have h95 : ((0 : ℝ) ≤ 95 / 100 ∧ (95 / 100 : ℝ) ≤ 1) := by norm_num
  refine ⟨?_, ?_, ?_⟩
  · simp [ComplementaryFilter.init, hr0, hw.1, hw.2]
  · simp [OrientProcessor.init, ComplementaryFilter.init, hr0, h95]
  · simp [OrientProcessor.calibrate_gyro, hn0]

/-- Witness for C7 (amended): rate 100, weight 1/2 and one sample satisfy
the hypotheses, and construction succeeds. -/
theorem core_ops_no_fault_witness :
    (1 ≤ 100 ∧ ((0 : ℝ) ≤ 1 / 2 ∧ (1 / 2 : ℝ) ≤ 1) ∧ 1 ≤ 1) ∧
    (ComplementaryFilter.init 100 (1 / 2) 0).isSome = true :=
  ⟨⟨by norm_num, by norm_num, by norm_num⟩,
   (core_ops_no_fault 100 1 (1 / 2) 0 (fun _ => ⟨0, 0, 0⟩) proc0
     (by norm_num) (by norm_num) (by norm_num)).1⟩

end
